import Mathlib

/-!
Verification of the detection-and-fanout pipeline of the
`telegram-gift-monitor` repository.

The embedding translates, from the source:
  * `backend/services/monitor/gift_detector.py` (class `GiftDetector`),
  * `backend/services/monitor/telegram_monitor.py` (class `TelegramMonitor`:
    `process_message`, `_is_monitored_channel`, `_send_notifications`,
    `_update_statistics`),
  * the observable contract of `backend/services/api/database_docker_adapter.py`
    (`Database.save_notification` returns `Optional[int]`, i.e. an id or `None`).

Modelling conventions:
  * Texts are `List Char` (Python `str`, one element per code point).
  * Python floats used by the urgency score (the tenths constants) are
    modelled as exact rationals `ℚ`; all values reached by that code are
    small multiples of 1/10 where double arithmetic and exact arithmetic agree
    on every comparison the code performs.  The availability percentage
    `int((available / total) * 100)`, by contrast, is genuinely sensitive to
    IEEE-754 binary64 rounding, and is modelled exactly by `pyFloatPct`:
    both the quotient and the product are correctly rounded to the binary64
    grid (round to nearest, ties to even, gradual underflow) before the
    truncation toward zero, and a magnitude reaching 2^1024 models CPython's
    `OverflowError`.
  * `re` patterns are translated to explicit leftmost-match scanners, following
    Python's leftmost / greedy / first-alternative semantics of the concrete
    patterns in the source (analysed pattern by pattern below).
  * `datetime.utcnow()` (two call sites) and `hashlib.md5` are impure /
    external primitives; they are passed in as a `DetectEnv` value.
  * Awaited I/O of the pipeline (redis, database adapter, push gateway) is
    modelled by oracle functions returning `Except Unit α`: `.ok` is a normal
    return, `.error` is a raised exception.  Each Python `try/except` handler
    is inlined at the call sites it guards (exactly the calls syntactically
    inside the `try` block can raise in this model).
-/

namespace TGM

/-! ## Character-level utilities -/

/-- ASCII decimal digit, the `\d` class as used by the detector's patterns
(digits appearing in the monitored feeds are ASCII). -/
def isDigit (c : Char) : Bool := 48 ≤ c.toNat && c.toNat ≤ 57

/-- Whitespace for `\s` (space, tab, newline, carriage return, form feed,
vertical tab — the ASCII part of Python's `\s`). -/
def isSpace (c : Char) : Bool :=
  c = ' ' || c = '\t' || c = '\n' || c = '\r' || c.toNat = 12 || c.toNat = 11

/-- Word character for `\b` boundaries: Python `\w` restricted to the scripts
occurring in the monitored feeds (ASCII letters, digits, underscore, and the
Cyrillic block U+0400–U+04FF).  Emoji and punctuation are not word chars. -/
def isWordChar (c : Char) : Bool :=
  isDigit c || (97 ≤ c.toNat && c.toNat ≤ 122) || (65 ≤ c.toNat && c.toNat ≤ 90)
    || c = '_' || (0x400 ≤ c.toNat && c.toNat ≤ 0x4FF)

/-- Model of `str.lower` for the scripts the keyword lists use: ASCII `A–Z` and
Cyrillic `А–Я`/`Ё`.  Other characters are unchanged. -/
def lowerChar (c : Char) : Char :=
  if 65 ≤ c.toNat ∧ c.toNat ≤ 90 then Char.ofNat (c.toNat + 32)
  else if 0x410 ≤ c.toNat ∧ c.toNat ≤ 0x42F then Char.ofNat (c.toNat + 32)
  else if c.toNat = 0x401 then Char.ofNat 0x451
  else c

/-- Model of `text.lower()`. -/
def lowerStr (l : List Char) : List Char := l.map lowerChar

/-- Model of `needle` is a prefix of `hay` (helper for substring search). -/
def startsWithL : List Char → List Char → Bool
  | [], _ => true
  | _ :: _, [] => false
  | a :: as, b :: bs => a == b && startsWithL as bs

/-- Python's `needle in hay` substring test. -/
def containsSub (needle : List Char) : List Char → Bool
  | [] => startsWithL needle []
  | c :: rest => startsWithL needle (c :: rest) || containsSub needle rest

/-- Model of `int(s)` on a (nonempty) digit string. -/
def digitsToNat (l : List Char) : Nat :=
  l.foldl (fun acc c => 10 * acc + (c.toNat - 48)) 0

/-- Maximal digit run at the head of the list: `(run, rest)`. -/
def takeDigits : List Char → List Char × List Char
  | [] => ([], [])
  | c :: rest =>
    if isDigit c then
      let p := takeDigits rest
      (c :: p.1, p.2)
    else ([], c :: rest)

/-- Maximal whitespace run dropped from the head (`\s*`). -/
def dropSpaces : List Char → List Char
  | [] => []
  | c :: rest => if isSpace c then dropSpaces rest else c :: rest

/-- Model of `str(n)` for naturals. -/
def natToStr (n : Nat) : List Char := Nat.toDigits 10 n

/-- Model of `str(i)` for Python ints (channel ids can be negative). -/
def intToStr : Int → List Char
  | .ofNat n => natToStr n
  | .negSucc m => '-' :: natToStr (m + 1)

/-! ## GiftDetector keyword lists (gift_detector.py, `__init__`) -/

/-- Model of `self.gift_keywords` (gate list: English, Russian, emoji). -/
def gift_keywords : List (List Char) :=
  ["gift", "gifts", "new gift", "appeared", "limited", "rare",
   "exclusive", "special", "unique", "premium", "vip",
   "подарок", "подарки", "новый подарок", "появился", "редкий",
   "эксклюзив", "особый", "уникальный", "премиум", "вип",
   "🎁", "🎀", "💎", "🎯", "🌟", "⭐", "🔥", "💰", "🏆"].map String.toList

/-- Model of `self.limited_keywords`. -/
def limited_keywords : List (List Char) :=
  ["limited", "rare", "exclusive", "special", "unique", "vip",
   "лимит", "редкий", "эксклюзив", "особый", "уникальный", "вип",
   "🔥", "⚡", "💎"].map String.toList

/-- Model of `sold_out_keywords` of `_is_sold_out`. -/
def sold_out_keywords : List (List Char) :=
  ["sold out", "распродан", "закончился", "нет в наличии",
   "недоступен", "unavailable", "0%", "ended"].map String.toList

/-- Model of `gift_emojis` of `_extract_emoji`. -/
def gift_emojis : List (List Char) :=
  ["🎁", "🎀", "💎", "🎯", "🌟", "⭐", "🔥", "💰", "🏆"].map String.toList

/-- Model of `price_indicators` of `_guess_price`. -/
def price_indicators : List (List Char) :=
  ["⭐", "🌟", "price", "цена", "стоимость", "cost", "$", "₽"].map String.toList

theorem takeDigits_rest_length (l : List Char) : (takeDigits l).2.length ≤ l.length := by
  induction l with
  | nil => simp [takeDigits]
  | cons c rest ih =>
    simp only [takeDigits]
    split
    · simpa using Nat.le_succ_of_le ih
    · simp

theorem dropSpaces_length (l : List Char) : (dropSpaces l).length ≤ l.length := by
  induction l with
  | nil => simp [dropSpaces]
  | cons c rest ih =>
    simp only [dropSpaces]
    split
    · exact Nat.le_succ_of_le ih
    · simp

/-! ## Regex scanners

Each Python pattern of the detector is translated to an explicit scanner with
Python's leftmost-match semantics.  For these concrete patterns, greedy
sub-matches with backtracking reduce to the maximal-munch scans used below:
after a (comma-)number group the pattern always continues with `\s*` followed
by a character that can be neither a digit nor a comma, so no shorter
sub-match can ever succeed where the maximal one fails. -/

/-- Model of `re.findall(r'\b(\d{10,20})\b', text)`: maximal digit runs, isolated from
adjacent word characters, of length 10–20, in text order.  `before` is the
character preceding the current run (`none` at the start of the text), `run`
is the current digit run reversed. -/
def longNumsAux : Option Char → List Char → List Char → List (List Char)
  | before, run, [] =>
    if 10 ≤ run.length ∧ run.length ≤ 20 ∧ (match before with
        | none => true
        | some b => !isWordChar b) = true then [run.reverse] else []
  | before, run, c :: rest =>
    if isDigit c then longNumsAux before (c :: run) rest
    else
      (if 10 ≤ run.length ∧ run.length ≤ 20 ∧ ((match before with
          | none => true
          | some b => !isWordChar b) && !isWordChar c) = true
        then [run.reverse] else []) ++ longNumsAux (some c) [] rest

/-- All matches of number pattern 1, `\b(\d{10,20})\b`. -/
def longNums (text : List Char) : List (List Char) := longNumsAux none [] text

/-- First match of `\b(\d{10,20})\b` (used by `_generate_gift_id`). -/
def firstLongNumber (text : List Char) : Option (List Char) := (longNums text).head?

/-- Match of `(\d+)\s*%` anchored at the head of `l`: the digit-run value. -/
def percentAt (l : List Char) : Option Nat :=
  match l with
  | [] => none
  | c :: _ =>
    if isDigit c then
      let p := takeDigits l
      match dropSpaces p.2 with
      | '%' :: _ => some (digitsToNat p.1)
      | _ => none
    else none

/-- Model of `re.search(r'(\d+)\s*%', text)`: value of group 1 of the leftmost match. -/
def firstPercent : List Char → Option Nat
  | [] => none
  | c :: rest =>
    match percentAt (c :: rest) with
    | some v => some v
    | none => firstPercent rest

/-- Match of `(\d+)\s*/\s*(\d+)` anchored at the head of `l`. -/
def fractionAt (l : List Char) : Option (Nat × Nat) :=
  match l with
  | [] => none
  | c :: _ =>
    if isDigit c then
      let p := takeDigits l
      match dropSpaces p.2 with
      | '/' :: r3 =>
        let r4 := dropSpaces r3
        let q := takeDigits r4
        if q.1.isEmpty then none else some (digitsToNat p.1, digitsToNat q.1)
      | _ => none
    else none

/-- Model of `re.search(r'(\d+)\s*/\s*(\d+)', text)`: groups of the leftmost match. -/
def firstFraction : List Char → Option (Nat × Nat)
  | [] => none
  | c :: rest =>
    match fractionAt (c :: rest) with
    | some v => some v
    | none => firstFraction rest

/-- Model of `\d{1,3}` (greedy): up to three digits from the head. -/
def take3Digits : List Char → List Char × List Char
  | [] => ([], [])
  | c :: rest =>
    if isDigit c then
      match rest with
      | d :: rest2 =>
        if isDigit d then
          match rest2 with
          | e :: rest3 =>
            if isDigit e then ([c, d, e], rest3) else ([c, d], rest2)
          | [] => ([c, d], [])
        else ([c], rest)
      | [] => ([c], [])
    else ([], c :: rest)

/-- Model of `(?:,\d{3})*` (greedy): comma + exactly-three-digit groups. -/
def commaGroups : List Char → List Char × List Char
  | ',' :: a :: b :: c :: rest =>
    if isDigit a && isDigit b && isDigit c then
      let p := commaGroups rest
      (',' :: a :: b :: c :: p.1, p.2)
    else ([], ',' :: a :: b :: c :: rest)
  | l => ([], l)

theorem take3Digits_digit_length {c : Char} (rest : List Char) (h : isDigit c = true) :
    (take3Digits (c :: rest)).2.length ≤ rest.length := by
  simp only [take3Digits, h, if_true]
  cases rest with
  | nil => simp
  | cons d rest2 =>
    by_cases hd : isDigit d = true
    · simp only [hd, if_true]
      cases rest2 with
      | nil => simp
      | cons e rest3 =>
        by_cases he : isDigit e = true <;> simp [he] <;> omega
    · simp [hd]

theorem commaGroups_rest_length (l : List Char) : (commaGroups l).2.length ≤ l.length := by
  induction l using commaGroups.induct with
  | case1 a b c rest h ih =>
    simp only [commaGroups, h, if_true]
    simp only [List.length_cons]
    omega
  | case2 a b c rest h =>
    simp [commaGroups, h]
  | case3 l h =>
    unfold commaGroups
    split
    · rename_i a b c rest
      exact absurd rfl (h a b c rest)
    · simp

/-- Model of `re.findall(r'(\d{1,3}(?:,\d{3})*)', text)`: number pattern 2, scanning
left to right, continuing after each match. -/
def findCommaNums : List Char → List (List Char)
  | [] => []
  | c :: rest =>
    if h : isDigit c = true then
      let p := take3Digits (c :: rest)
      let q := commaGroups p.2
      (p.1 ++ q.1) :: findCommaNums q.2
    else findCommaNums rest
termination_by l => l.length
decreasing_by
  · have h1 := take3Digits_digit_length rest h
    have h2 := commaGroups_rest_length (take3Digits (c :: rest)).2
    simp only [List.length_cons]
    omega
  · simp

theorem takeDigits_digit_length {c : Char} (rest : List Char) (h : isDigit c = true) :
    (takeDigits (c :: rest)).2.length ≤ rest.length := by
  simp only [takeDigits, h, if_true]
  exact takeDigits_rest_length rest

/-- Model of `re.findall(r'(\d+(?:\.\d+)?)', text)`: number pattern 3. -/
def findPlainNums : List Char → List (List Char)
  | [] => []
  | c :: rest =>
    if h : isDigit c = true then
      let p := takeDigits (c :: rest)
      match hm : p.2 with
      | '.' :: d :: r3 =>
        if hd : isDigit d = true then
          let q := takeDigits (d :: r3)
          (p.1 ++ '.' :: q.1) :: findPlainNums q.2
        else p.1 :: findPlainNums p.2
      | _ => p.1 :: findPlainNums p.2
    else findPlainNums rest
termination_by l => l.length
decreasing_by
  all_goals simp only [List.length_cons]
  · have h1 := takeDigits_digit_length rest h
    have h2 := takeDigits_digit_length r3 hd
    have h3 : (takeDigits (c :: rest)).2.length = r3.length + 2 := by
      rw [show (takeDigits (c :: rest)).2 = '.' :: d :: r3 from hm]; simp
    omega
  · have h1 := takeDigits_digit_length rest h
    omega
  · have h1 := takeDigits_digit_length rest h
    omega
  · omega

/-- Model of `_extract_numbers`: the three number patterns, `findall` results
concatenated in pattern order. -/
def extract_numbers (text : List Char) : List (List Char) :=
  longNums text ++ findCommaNums text ++ findPlainNums text

/-- Model of `(?:,\d+)*` (greedy) of the price pattern: comma + nonempty digit runs. -/
def priceGroups : List Char → List Char × List Char
  | ',' :: d :: rest2 =>
    if hd : isDigit d = true then
      let p := takeDigits (d :: rest2)
      let q := priceGroups p.2
      (',' :: (p.1 ++ q.1), q.2)
    else ([], ',' :: d :: rest2)
  | l => ([], l)
termination_by l => l.length
decreasing_by
  have h1 := takeDigits_digit_length rest2 hd
  simp only [List.length_cons]
  omega

/-- Model of `(\d+(?:,\d+)*)` anchored at the head of `l`: `(group, rest)`. -/
def priceNumAt (l : List Char) : Option (List Char × List Char) :=
  match l with
  | [] => none
  | c :: _ =>
    if isDigit c then
      let p := takeDigits l
      let q := priceGroups p.2
      some (p.1 ++ q.1, q.2)
    else none

/-- Case-insensitive literal match of `needle` (already lower case in the
source lists) at the head of `hay`, as `re.IGNORECASE` does for them. -/
def startsWithCI (needle hay : List Char) : Bool :=
  startsWithL needle (lowerStr hay)

/-- One position of
`re.search(rf'(\d+(?:,\d+)*)\s*{ind}|{ind}\s*(\d+(?:,\d+)*)', text, re.IGNORECASE)`:
first alternative (number before indicator), then second (number after). -/
def priceAltAt (ind l : List Char) : Option (List Char) :=
  match priceNumAt l with
  | some p =>
    if startsWithCI ind (dropSpaces p.2) then some p.1
    else if startsWithCI ind l then
      match priceNumAt (dropSpaces (l.drop ind.length)) with
      | some q => some q.1
      | none => none
    else none
  | none =>
    if startsWithCI ind l then
      match priceNumAt (dropSpaces (l.drop ind.length)) with
      | some q => some q.1
      | none => none
    else none

/-- Leftmost match of the two-alternative price pattern for one indicator. -/
def searchPriceInd (ind : List Char) : List Char → Option (List Char)
  | [] => none
  | c :: rest =>
    match priceAltAt ind (c :: rest) with
    | some v => some v
    | none => searchPriceInd ind rest

/-- The indicator loop of `_guess_price`: first indicator with a match wins. -/
def tryIndicators : List (List Char) → List Char → Option (List Char)
  | [], _ => none
  | ind :: rest, text =>
    match searchPriceInd ind text with
    | some p => some p
    | none => tryIndicators rest text

/-- Model of `x.replace(',', '')`. -/
def stripCommas (l : List Char) : List Char := l.filter (fun c => c ≠ ',')

/-- Model of `max(numbers_with_commas, key=lambda x: int(x.replace(',', '')))`
(Python `max` keeps the first occurrence of the maximum). -/
def maxCommaNum : List (List Char) → Option (List Char)
  | [] => none
  | x :: xs =>
    some (xs.foldl
      (fun best y =>
        if digitsToNat (stripCommas y) > digitsToNat (stripCommas best) then y else best)
      x)

/-- Model of `_guess_price(numbers, text)`. -/
def guess_price (numbers : List (List Char)) (text : List Char) : Option (List Char) :=
  match tryIndicators price_indicators text with
  | some p => some p
  | none => maxCommaNum (numbers.filter (fun n => n.contains ','))

/-! ### IEEE-754 binary64 model for the availability percentage

The fraction branch of `_extract_availability` computes
`int((available / total) * 100)` in Python float (IEEE-754 binary64)
arithmetic.  Both the integer true-division and the multiplication are
correctly rounded to nearest, ties to even, so the computation is modelled
exactly by rounding the exact rationals to the binary64 grid twice and
truncating.  A float is represented exactly as a signed mantissa/exponent
pair `(m, p)` with value `m * 2 ^ p`, and a `none` result marks the
magnitude reaching 2^1024: there CPython raises `OverflowError` from the
division (or produces an infinity whose `int()` raises), and the exception
escapes `_extract_availability` and `detect_gift`. -/

/-- Floor of `log2 n` by fuelled halving (any fuel `≥ log2 n` is enough, so
the value itself always is); structural recursion keeps it reducible. -/
def log2n : Nat → Nat → Nat
  | 0, _ => 0
  | fuel + 1, n => if 2 ≤ n then log2n fuel (n / 2) + 1 else 0

/-- Floor of `log2 n` (zero for `n = 0`). -/
def natLog2 (n : Nat) : Nat := log2n n n

/-- Decide `2 ^ e ≤ a / b` for positive naturals by cross-multiplying. -/
def ratGe2pow (a b : Nat) (e : Int) : Bool :=
  match e with
  | .ofNat n => b * 2 ^ n ≤ a
  | .negSucc n => b ≤ a * 2 ^ (n + 1)

/-- The binade of a positive rational: the unique `e` with
`2 ^ e ≤ a / b < 2 ^ (e + 1)` (for `a, b ≥ 1` it is `log2 a - log2 b`,
corrected down by one when needed). -/
def ratILog2 (a b : Nat) : Int :=
  let e0 : Int := (natLog2 a : Int) - (natLog2 b : Int)
  if ratGe2pow a b e0 then e0 else e0 - 1

/-- Round the nonnegative rational `num / den` to the nearest integer, ties
to even. -/
def rndNE (num den : Nat) : Nat :=
  let q := num / den
  let r := num % den
  if 2 * r < den then q
  else if den < 2 * r then q + 1
  else if q % 2 = 0 then q else q + 1

/-- The IEEE-754 binary64 value nearest to the rational `n / d` (round to
nearest, ties to even), as an exact signed mantissa/exponent pair `(m, p)`
of value `m * 2 ^ p`; the fraction need not be reduced (rounding is
scale-invariant).  Zero and gradual underflow are exact, and `none` models
the overflow to infinity / `OverflowError` at magnitude 2^1024.  The ulp
exponent is `e - 52` capped below at `-1074` (subnormals), so the rounding
grid is exactly the binary64 grid around `n / d`. -/
def floatOfND (n : Int) (d : Nat) : Option (Int × Int) :=
  if n = 0 then some (0, 0)
  else
    let a := n.natAbs
    let e := ratILog2 a d
    let p : Int := max (e - 52) (-1074)
    let m : Nat :=
      if p ≤ 0 then rndNE (a * 2 ^ (-p).toNat) d
      else rndNE a (d * 2 ^ p.toNat)
    if 0 ≤ p then
      if (2 : Nat) ^ 1024 ≤ m * 2 ^ p.toNat then none
      else some ((if n < 0 then -(m : Int) else (m : Int)), p)
    else some ((if n < 0 then -(m : Int) else (m : Int)), p)

/-- Model of `int((avail / tot) * 100)` in Python float arithmetic: the
correctly rounded double quotient `m * 2 ^ p`, times 100 (the product
`m * 100 * 2 ^ p` rewritten as a fraction and correctly rounded again),
truncated toward zero (`Int.tdiv`, Python `int()`); `none` when either step
leaves the double range (CPython raises `OverflowError`). -/
def pyFloatPct (avail : Int) (tot : Nat) : Option Int :=
  match floatOfND avail tot with
  | none => none
  | some (m, p) =>
    match (if 0 ≤ p then floatOfND (m * 100 * (2 : Int) ^ p.toNat) 1
           else floatOfND (m * 100) (2 ^ (-p).toNat)) with
    | none => none
    | some (m2, p2) =>
      some (if 0 ≤ p2 then m2 * (2 : Int) ^ p2.toNat
            else m2.tdiv ((2 : Int) ^ (-p2).toNat))

/-- Result dictionary of `_extract_availability`: an `Option` field per
possible key (`none` = key absent). -/
structure Availability where
  available_percent : Option Int
  is_sold_out : Option Bool
  available : Option Int
  total : Option Nat
deriving DecidableEq

/-- Model of `_extract_availability(text)`: direct percent pattern first (a percent of
0 adds `is_sold_out = True`), then the fraction pattern, which sets
`available`/`total` and overwrites `available_percent` with
`int((available / total) * 100)` — computed in Python float arithmetic,
modelled exactly by `pyFloatPct` — when the denominator is positive.
A quotient beyond the double range makes CPython raise `OverflowError`
(`.error ()`), aborting the extraction with no dictionary returned. -/
def extract_availability (text : List Char) : Except Unit (Option Availability) :=
  let r0 : Availability := ⟨none, none, none, none⟩
  let r1 : Availability :=
    match firstPercent text with
    | some p => { r0 with available_percent := some (p : Int),
                          is_sold_out := if p = 0 then some true else none }
    | none => r0
  match firstFraction text with
  | some (cur, tot) =>
    let r2 : Availability :=
      { r1 with available := some ((tot : Int) - (cur : Int)), total := some tot }
    if 0 < tot then
      match pyFloatPct ((tot : Int) - (cur : Int)) tot with
      | some v => .ok (some { r2 with available_percent := some v })
      | none => .error ()
    else .ok (some r2)
  | none => if (firstPercent text).isNone then .ok none else .ok (some r1)

/-- Model of `_is_limited_gift(text_lower)`. -/
def is_limited_gift (tl : List Char) : Bool :=
  limited_keywords.any (fun k => containsSub k tl)

/-- Model of `_is_sold_out(text_lower)`. -/
def is_sold_out (tl : List Char) : Bool :=
  sold_out_keywords.any (fun k => containsSub k tl)

/-- Model of `_extract_emoji(text)`: first emoji of the fixed list found in the text,
else the default gift emoji. -/
def extract_emoji (text : List Char) : List Char :=
  match gift_emojis.find? (fun e => containsSub e text) with
  | some e => e
  | none => "🎁".toList

/-- The structured record built by `detect_gift` (dictionary keys that are
only conditionally set are `Option` fields). -/
structure GiftData where
  id : List Char
  detected_at : List Char
  is_limited : Bool
  is_sold_out : Bool
  urgency_score : ℚ
  price : Option (List Char)
  emoji : Option (List Char)
  available_percent : Option Int
  available : Option Int
  total : Option Nat
  description : List Char
deriving DecidableEq

/-- Model of `_calculate_urgency(gift_data)`: base 0.3, sold-out short-circuits to 0.0,
+0.3 for limited, one tiered availability bonus, capped at 1.0. -/
def calculate_urgency (g : GiftData) : ℚ :=
  let score : ℚ := 3/10
  if g.is_sold_out then 0
  else
    let score := if g.is_limited then score + 3/10 else score
    let score :=
      match g.available_percent with
      | some p =>
        if p < 10 then score + 4/10
        else if p < 25 then score + 3/10
        else if p < 50 then score + 2/10
        else score
      | none => score
    if score ≤ 1 then score else 1

/-- The impure environment of one `detect_gift` call: `hashlib.md5(...)[:6]`
as a function of the text, and the two `datetime.utcnow()` formattings
(`strftime('%Y%m%d%H%M%S')` inside `_generate_gift_id`, `isoformat()` for
`detected_at`). -/
structure DetectEnv where
  md5hex6 : List Char → List Char
  now_strftime : List Char
  now_iso : List Char

/-- Model of `_generate_gift_id(text)`: first isolated 10–20 digit run, else the
timestamp + content-hash fallback. -/
def generate_gift_id (env : DetectEnv) (text : List Char) : List Char :=
  match firstLongNumber text with
  | some n => n
  | none => env.now_strftime ++ env.md5hex6 text

/-- Model of `detect_gift(text)` (gift_detector.py, lines 46–103): empty-text guard,
keyword gate, id, flags, numbers/price, emoji, availability merge
(`gift_data.update(availability)`), recomputed urgency, description. -/
def detect_gift (env : DetectEnv) (text : List Char) : Option GiftData :=
  if text.isEmpty then none
  else if ¬ (gift_keywords.any (fun k => containsSub k (lowerStr text))) = true then none
  else
    let tl := lowerStr text
    let gid := generate_gift_id env text
    let numbers := extract_numbers text
    let price := guess_price numbers text
    let emojiRaw := extract_emoji text
    match extract_availability text with
    | .error _ =>
      -- The OverflowError escapes `detect_gift`; `process_message`'s outer
      -- handler catches it with no further effects, which is observably the
      -- same pipeline outcome as a non-detection, so the detector model
      -- folds the escaped exception into `none`.
      none
    | .ok avail =>
      let g0 : GiftData :=
        { id := gid
          detected_at := env.now_iso
          is_limited := is_limited_gift tl
          is_sold_out :=
            match avail with
            | some a => a.is_sold_out.getD (is_sold_out tl)
            | none => is_sold_out tl
          urgency_score := 1/2
          price := price
          emoji := if emojiRaw.isEmpty then none else some emojiRaw
          available_percent := (avail.map Availability.available_percent).getD none
          available := (avail.map Availability.available).getD none
          total := (avail.map Availability.total).getD none
          description :=
            if text.length > 100 then text.take 100 ++ "...".toList else text }
      some { g0 with urgency_score := calculate_urgency g0 }

/-! ## Pipeline (telegram_monitor.py, `TelegramMonitor`)

Awaited I/O is represented by oracles returning `Except Unit α`
(`.error () ` = the awaited call raised).  Each Python `try/except` is inlined
at the calls it syntactically guards; no other statement of `process_message`
can raise in this model, so the outermost `except` (lines 261–262) is
unreachable and the function is total.  The observable actions of one
`process_message` call are accumulated in an `Effects` record. -/

/-- One entry of `self.monitored_channels`. -/
structure ChanInfo where
  username : List Char
  telegram_id : Int
deriving DecidableEq

/-- The fields of an incoming pyrogram `Message` the pipeline reads. -/
structure MsgIn where
  chat_id : Int
  chat_username : Option (List Char)
  msg_id : Nat
  text : Option (List Char)
  caption : Option (List Char)
deriving DecidableEq

/-- A row of `get_active_users_for_channel`. -/
structure UserRec where
  uid : Nat
  is_muted : Bool
deriving DecidableEq

/-- Model of `send_to_tokens` result dictionary. -/
structure SendRes where
  success : Nat
  failure : Nat
deriving DecidableEq

/-- The external world of one `process_message` call: configuration plus one
oracle per awaited operation. -/
structure PipelineEnv where
  detectEnv : DetectEnv
  monitored : List ChanInfo
  redisConn : Bool
  redisExists : Int → Nat → Except Unit Bool
  redisSetex : Int → Nat → Nat → Except Unit Unit
  dbPool : Bool
  saveNotification : Except Unit (Option Nat)
  getActiveUsers : Except Unit (List UserRec)
  getUserTokens : Nat → Except Unit (List (List Char))
  pushSend : Nat → Except Unit SendRes
  logDelivery : Nat → Except Unit Unit
  incrementStats : Except Unit Unit
  priceHistory : Except Unit Unit

/-- Observable actions of one `process_message` call. -/
structure Effects where
  suppressed : Bool
  redisWarned : Bool
  markedTtl : Option Nat
  detected : Option GiftData
  saveCalled : Bool
  saveResult : Option (Option Nat)
  dbErrorLogged : Bool
  dispatchCalled : Bool
  dispatchedWith : Option (Option Nat)
  noUsersWarned : Bool
  fanoutErrorLogged : Bool
  pushedUsers : List Nat
  successCount : Nat
  deliveries : List (Nat × Bool)
  sendErrorUsers : List Nat
  statsDone : Bool
  statsErrorLogged : Bool
deriving DecidableEq

/-- No actions yet. -/
def Effects.init : Effects :=
  ⟨false, false, none, none, false, none, false, false, none, false, false,
   [], 0, [], [], false, false⟩

/-- Python string `or`: the left operand unless it is falsy (empty). -/
def pyOrStr (a b : List Char) : List Char := if a.isEmpty then b else a

/-- Model of `channel_username = message.chat.username or str(message.chat.id)`. -/
def channelUserOf (msg : MsgIn) : List Char :=
  pyOrStr (msg.chat_username.getD []) (intToStr msg.chat_id)

/-- Model of `text = message.text or message.caption or ""`. -/
def textOf (msg : MsgIn) : List Char :=
  pyOrStr (msg.text.getD []) (msg.caption.getD [])

/-- Model of `username.replace('@', '')`. -/
def stripAt (l : List Char) : List Char := l.filter (fun c => c ≠ '@')

/-- Model of `_is_monitored_channel(channel_username)`: match by @-normalised handle or
by the string form of the numeric chat id. -/
def is_monitored_channel (chans : List ChanInfo) (channel_username : List Char) : Bool :=
  chans.any (fun ch =>
    stripAt ch.username == stripAt channel_username
      || intToStr ch.telegram_id == channel_username)

/-- The dedup block of `process_message` (lines 210–220): returns
`true` when the message key already exists (the Python `return`), with the
`try/except` handler (log a warning and fall through) inlined at the two
redis calls it guards. -/
def dedupStep (env : PipelineEnv) (msg : MsgIn) (s : Effects) : Bool × Effects :=
  if env.redisConn then
    match env.redisExists msg.chat_id msg.msg_id with
    | .ok true => (true, s)
    | .ok false =>
      match env.redisSetex msg.chat_id msg.msg_id 3600 with
      | .ok _ => (false, { s with markedTtl := some 3600 })
      | .error _ => (false, { s with redisWarned := true })
    | .error _ => (false, { s with redisWarned := true })
  else (false, s)

/-- Per-recipient outcome deltas of the loop body of `_send_notifications`. -/
structure FanDelta where
  pushed : List Nat
  succ : Nat
  dels : List (Nat × Bool)
  errs : List Nat
deriving DecidableEq

/-- The body of `for user in active_users` (lines 305–334), for one user:
skip muted users, fetch tokens, send the batch, count a success and log the
delivery only when `results['success'] > 0`; the per-user `except` (line 333)
is inlined at each awaited call it guards. -/
def userDelta (env : PipelineEnv) (u : UserRec) : FanDelta :=
  if u.is_muted then ⟨[], 0, [], []⟩
  else
    match env.getUserTokens u.uid with
    | .error _ => ⟨[], 0, [], [u.uid]⟩
    | .ok tokens =>
      if tokens.isEmpty then ⟨[], 0, [], []⟩
      else
        match env.pushSend u.uid with
        | .error _ => ⟨[u.uid], 0, [], [u.uid]⟩
        | .ok res =>
          if res.success > 0 then
            match env.logDelivery u.uid with
            | .ok _ => ⟨[u.uid], 1, [(u.uid, true)], []⟩
            | .error _ => ⟨[u.uid], 1, [], [u.uid]⟩
          else ⟨[u.uid], 0, [], []⟩

/-- Append one user's deltas to the accumulated effects. -/
def applyDelta (s : Effects) (d : FanDelta) : Effects :=
  { s with pushedUsers := s.pushedUsers ++ d.pushed
           successCount := s.successCount + d.succ
           deliveries := s.deliveries ++ d.dels
           sendErrorUsers := s.sendErrorUsers ++ d.errs }

/-- The recipient loop of `_send_notifications`. -/
def sendLoop (env : PipelineEnv) (users : List UserRec) (s : Effects) : Effects :=
  users.foldl (fun acc u => applyDelta acc (userDelta env u)) s

/-- Model of `_send_notifications(channel_username, gift_data, notification_id)`
(lines 279–339): resolve recipients, warn and return when there are none,
else run the recipient loop; the outer `except` (line 338) is inlined at the
resolver call, the only statement it guards that can raise. -/
def send_notifications (env : PipelineEnv) (nid : Option Nat) (s : Effects) : Effects :=
  let s := { s with dispatchCalled := true, dispatchedWith := some nid }
  match env.getActiveUsers with
  | .error _ => { s with fanoutErrorLogged := true }
  | .ok users =>
    if users.isEmpty then { s with noUsersWarned := true }
    else sendLoop env users s

/-- Model of `_update_statistics(channel_username, gift_data)` (lines 341–359):
increment channel stats, then append price history when the event has a
price; its `except` is inlined at the two awaited calls. -/
def update_statistics (env : PipelineEnv) (g : GiftData) (s : Effects) : Effects :=
  match env.incrementStats with
  | .error _ => { s with statsErrorLogged := true }
  | .ok _ =>
    match g.price with
    | none => { s with statsDone := true }
    | some _ =>
      match env.priceHistory with
      | .ok _ => { s with statsDone := true }
      | .error _ => { s with statsErrorLogged := true }

/-- The `if self.db.pool:` block of `process_message` (lines 235–257): save,
then send notifications with whatever id `save_notification` returned (it
returns `None` on failure), then update statistics; the `except` at line 254
(log "Database error") is inlined at the one call inside the `try` that can
raise, the save itself. -/
def runDbSection (env : PipelineEnv) (g : GiftData) (s : Effects) : Effects :=
  if env.dbPool then
    let s := { s with saveCalled := true }
    match env.saveNotification with
    | .error _ => { s with dbErrorLogged := true }
    | .ok nid =>
      let s := { s with saveResult := some nid }
      let s := send_notifications env nid s
      update_statistics env g s
  else s

/-- Model of `process_message(message)` (lines 197–262): monitored-channel gate,
dedup, detection, persistence + fanout + statistics. -/
def process_message (env : PipelineEnv) (msg : MsgIn) : Effects :=
  let cu := channelUserOf msg
  if ¬ is_monitored_channel env.monitored cu = true then Effects.init
  else
    let p := dedupStep env msg Effects.init
    if p.1 then { p.2 with suppressed := true }
    else
      match detect_gift env.detectEnv (textOf msg) with
      | some g => runDbSection env g { p.2 with detected := some g }
      | none => p.2

/-- Each delivery callback processes one message independently. -/
def process_stream (env : PipelineEnv) (msgs : List MsgIn) : List Effects :=
  msgs.map (process_message env)

/-! ## Characterization helpers and concrete fixtures -/

/-- Per-recipient delivery outcome, written directly from the claim's
reading of the loop body: a delivery record `(uid, true)` exists exactly for
an unmuted recipient with a nonempty token list whose batch reported
`success > 0` and whose delivery-log call returned. -/
def deliveryOutcome (env : PipelineEnv) (u : UserRec) : Option (Nat × Bool) :=
  if u.is_muted then none
  else
    match env.getUserTokens u.uid with
    | .error _ => none
    | .ok tokens =>
      if tokens.isEmpty then none
      else
        match env.pushSend u.uid with
        | .error _ => none
        | .ok res =>
          if res.success > 0 then
            match env.logDelivery u.uid with
            | .ok _ => some (u.uid, true)
            | .error _ => none
          else none

/-- Per-recipient push attempt: an unmuted recipient with a nonempty token
list gets exactly one gateway batch call, whatever its outcome. -/
def pushAttempt (env : PipelineEnv) (u : UserRec) : Option Nat :=
  if u.is_muted then none
  else
    match env.getUserTokens u.uid with
    | .error _ => none
    | .ok tokens => if tokens.isEmpty then none else some u.uid

/-- Mask the only time-dependent field outside the identifier fallback. -/
def eraseTime (g : GiftData) : GiftData := { g with detected_at := [] }

/-- A fixed impure environment for concrete evaluations. -/
def envTriv : DetectEnv := ⟨fun _ => [], [], []⟩

/-- A pipeline environment where everything succeeds, one monitored channel
`ch` (id 77), no redis, a database pool whose save returns id 9, and no
eligible subscribers. -/
def envBase : PipelineEnv :=
  { detectEnv := envTriv
    monitored := [⟨"ch".toList, 77⟩]
    redisConn := false
    redisExists := fun _ _ => .ok false
    redisSetex := fun _ _ _ => .ok ()
    dbPool := true
    saveNotification := .ok (some 9)
    getActiveUsers := .ok []
    getUserTokens := fun _ => .ok []
    pushSend := fun _ => .ok ⟨1, 0⟩
    logDelivery := fun _ => .ok ()
    incrementStats := .ok ()
    priceHistory := .ok () }

/-- A gift message (text passes the gate and carries a long digit run) on the
monitored channel. -/
def msgGift : MsgIn := ⟨77, some "ch".toList, 5, some "🎁 1234567890".toList, none⟩

/-- Model of `envBase` with redis connected and the message key already marked. -/
def envC3 : PipelineEnv :=
  { envBase with redisConn := true, redisExists := fun _ _ => .ok true }

/-- Model of `envBase` with redis connected but every cache operation raising. -/
def envC7 : PipelineEnv :=
  { envBase with redisConn := true
                 redisExists := fun _ _ => .error ()
                 redisSetex := fun _ _ _ => .error () }

/-- Model of `envBase` with `save_notification` raising. -/
def envC4e : PipelineEnv := { envBase with saveNotification := .error () }

/-- Model of `envBase` with `save_notification` returning no identifier (`None`). -/
def envC4n : PipelineEnv := { envBase with saveNotification := .ok none }

/-- Model of `envBase` with a null save id and one eligible recipient holding one
device token whose push succeeds. -/
def envC1 : PipelineEnv :=
  { envBase with saveNotification := .ok none
                 getActiveUsers := .ok (⟨3, false⟩ :: [])
                 getUserTokens := fun _ => .ok (('t' :: []) :: [])
                 pushSend := fun _ => .ok ⟨1, 0⟩ }

/-- Model of `envBase` with two unmuted recipients with tokens; the gateway reports
zero successes for user 7 and `success_count = 2, failure_count = 1` for
user 8. -/
def envC5 : PipelineEnv :=
  { envBase with getActiveUsers := .ok (⟨7, false⟩ :: ⟨8, false⟩ :: [])
                 getUserTokens := fun _ => .ok (('t' :: []) :: [])
                 pushSend := fun u => if u = 7 then .ok ⟨0, 1⟩ else .ok ⟨2, 1⟩ }


/-! ## Detector lemmas -/

/-- Closed form of `_calculate_urgency`. -/
theorem calculate_urgency_eq (g : GiftData) :
    calculate_urgency g =
      (if g.is_sold_out then 0
       else min ((3 : ℚ)/10 + (if g.is_limited then (3 : ℚ)/10 else 0) +
         (match g.available_percent with
          | some p =>
            if p < 10 then (4 : ℚ)/10
            else if p < 25 then (3 : ℚ)/10
            else if p < 50 then (2 : ℚ)/10
            else 0
          | none => 0)) 1) := by
  obtain ⟨i, d, lim, sold, u, pr, em, ap, av, tot, de⟩ := g
  unfold calculate_urgency
  cases sold <;> cases lim <;> rcases ap with _ | p <;> simp [min_def]
  all_goals split_ifs
  all_goals try rfl
  all_goals try ring
  all_goals (exfalso; push_neg at *; linarith)

/-- An availability extraction that returns an empty dictionary can only come
from a text with neither a percent nor a fraction match. -/
theorem merged_sold_none (text : List Char)
    (h : extract_availability text = .ok none) : firstPercent text = none := by
  unfold extract_availability at h
  rcases hp : firstPercent text with _ | p
  · rfl
  · exfalso
    rw [hp] at h
    rcases hf : firstFraction text with _ | ⟨cur, tot⟩ <;> rw [hf] at h
    · simp at h
    · by_cases htot : 0 < tot
      · rcases hpv : pyFloatPct ((tot : Int) - (cur : Int)) tot with _ | v <;>
          simp [htot, hpv] at h
      · simp [htot] at h

/-- The merged `is_sold_out` after `gift_data.update(availability)`:
the keyword hit, or a directly matched percentage of value 0 (whenever the
extraction returns a dictionary). -/
theorem merged_sold_some (text : List Char) (av : Availability)
    (h : extract_availability text = .ok (some av)) :
    av.is_sold_out.getD (is_sold_out (lowerStr text))
      = (is_sold_out (lowerStr text) || firstPercent text == some 0) := by
  unfold extract_availability at h
  rcases hp : firstPercent text with _ | p <;>
    rcases hf : firstFraction text with _ | ⟨cur, tot⟩ <;>
      rw [hp, hf] at h
  · simp at h
  · by_cases htot : 0 < tot
    · rcases hpv : pyFloatPct ((tot : Int) - (cur : Int)) tot with _ | v <;>
        simp [htot, hpv] at h
      subst h
      simp
    · simp [htot] at h
      subst h
      simp
  · simp at h
    subst h
    by_cases h0 : p = 0 <;> simp [h0]
  · by_cases htot : 0 < tot
    · rcases hpv : pyFloatPct ((tot : Int) - (cur : Int)) tot with _ | v <;>
        simp [htot, hpv] at h
      subst h
      by_cases h0 : p = 0 <;> simp [h0]
    · simp [htot] at h
      subst h
      by_cases h0 : p = 0 <;> simp [h0]

/-- Field-level description of a successful detection, read off the record
`detect_gift` builds (a successful detection in particular means the
availability extraction returned instead of raising). -/
theorem detect_gift_fields {env : DetectEnv} {text : List Char} {g : GiftData}
    (h : detect_gift env text = some g) :
    ∃ avail, extract_availability text = .ok avail
    ∧ g.is_sold_out = (is_sold_out (lowerStr text) || firstPercent text == some 0)
    ∧ g.is_limited = is_limited_gift (lowerStr text)
    ∧ g.available_percent = (avail.map Availability.available_percent).getD none
    ∧ g.available = (avail.map Availability.available).getD none
    ∧ g.total = (avail.map Availability.total).getD none
    ∧ g.urgency_score = calculate_urgency g := by
  unfold detect_gift at h
  split at h
  · exact absurd h (by simp)
  · split at h
    · exact absurd h (by simp)
    · rcases hava : extract_availability text with e | avail <;> rw [hava] at h
      · exact absurd h (by simp)
      · rw [show (Except.ok avail : Except Unit (Option Availability))
            = .ok avail from rfl] at h
        have h2 := Option.some.inj h
        subst h2
        refine ⟨avail, rfl, ?_, rfl, rfl, rfl, rfl, rfl⟩
        rcases avail with _ | av
        · have hp := merged_sold_none text hava
          show is_sold_out (lowerStr text) = _
          rw [hp]
          simp
        · show av.is_sold_out.getD (is_sold_out (lowerStr text)) = _
          exact merged_sold_some text av hava

/-- Model of `'0%'` is one of the sold-out keywords, so any lowered text containing it
is flagged sold out. -/
theorem is_sold_out_of_contains (tl : List Char)
    (h : containsSub ('0' :: '%' :: []) tl = true) : is_sold_out tl = true := by
  unfold is_sold_out
  refine List.any_eq_true.mpr ⟨'0' :: '%' :: [], ?_, h⟩
  decide

/-! ## Claim C9 -/

/-- C9: for every text (the empty text included) in which no gate keyword
occurs as a case-insensitive substring, `detect_gift` returns `None`. -/
theorem C9_no_gate_keyword_no_detection (env : DetectEnv) (text : List Char)
    (h : gift_keywords.all (fun k => !containsSub k (lowerStr text)) = true) :
    detect_gift env text = none := by
  have hgate : (gift_keywords.any fun k => containsSub k (lowerStr text)) = false := by
    rw [List.any_eq_false]
    intro k hk
    have := (List.all_eq_true.mp h) k hk
    simpa using this
  unfold detect_gift
  split
  · rfl
  · rw [if_pos]
    rw [hgate]
    simp

/-- C9 witness: a concrete keyword-free text. -/
theorem C9_witness :
    (gift_keywords.all (fun k => !containsSub k (lowerStr "hello there".toList)) = true)
      ∧ detect_gift envTriv "hello there".toList = none :=
  ⟨by decide, C9_no_gate_keyword_no_detection envTriv "hello there".toList (by decide)⟩

/-! ## Claim C2 -/

/-- C2 counterexample: the text `"🎁 0 %"` contains no sold-out phrase and
does not contain the substring `"0%"`, and it is not limited, so the claim's
formula yields 0.3 + 0.4 = 0.7 for its percentage 0; the code, however,
flags it sold out (the percentage override) and returns urgency 0. -/
theorem C2_counterexample :
    is_sold_out (lowerStr "🎁 0 %".toList) = false
    ∧ (detect_gift envTriv "🎁 0 %".toList).map GiftData.is_limited = some false
    ∧ (detect_gift envTriv "🎁 0 %".toList).map GiftData.available_percent = some (some 0)
    ∧ (detect_gift envTriv "🎁 0 %".toList).map GiftData.urgency_score = some 0
    ∧ min ((3 : ℚ)/10 + 0 + (4 : ℚ)/10) 1 = 7/10
    ∧ (0 : ℚ) ≠ 7/10 := by
  refine ⟨by decide, by decide, by decide, by decide, by norm_num, by norm_num⟩

/-- C2 (amended): for every detected event, `is_sold_out` is the keyword hit
(whose phrase list contains `"0%"`) OR-ed with a directly matched percentage
of value 0, and `urgency_score` is 0 when that flag is set, else
0.3 + (0.3 if limited) + exactly one availability tier bonus
(+0.4 below 10, +0.3 below 25, +0.2 below 50), capped at 1. -/
theorem C2_urgency_formula (env : DetectEnv) (text : List Char) (g : GiftData)
    (h : detect_gift env text = some g) :
    g.is_sold_out = (is_sold_out (lowerStr text) || firstPercent text == some 0)
    ∧ g.urgency_score =
      (if g.is_sold_out then 0
       else min ((3 : ℚ)/10 + (if g.is_limited then (3 : ℚ)/10 else 0) +
         (match g.available_percent with
          | some p =>
            if p < 10 then (4 : ℚ)/10
            else if p < 25 then (3 : ℚ)/10
            else if p < 50 then (2 : ℚ)/10
            else 0
          | none => 0)) 1) := by
  obtain ⟨avail, hava, hsold, hlim, hap, hav, htot, hurg⟩ := detect_gift_fields h
  exact ⟨hsold, hurg.trans (calculate_urgency_eq g)⟩

set_option maxRecDepth 4000 in
/-- C2 witness: a limited, not sold-out text with `available_percent = 5`
gets `urgency_score = 1`. -/
theorem C2_witness :
    detect_gift envTriv "🔥 limited 5%".toList
        = some { id := []
                 detected_at := []
                 is_limited := true
                 is_sold_out := false
                 urgency_score := 1
                 price := none
                 emoji := some "🔥".toList
                 available_percent := some 5
                 available := none
                 total := none
                 description := "🔥 limited 5%".toList }
    ∧ (1 : ℚ) =
      (if false then 0
       else min ((3 : ℚ)/10 + (if true then (3 : ℚ)/10 else 0) +
         (match (some 5 : Option Int) with
          | some p =>
            if p < 10 then (4 : ℚ)/10
            else if p < 25 then (3 : ℚ)/10
            else if p < 50 then (2 : ℚ)/10
            else 0
          | none => 0)) 1) := by
  have hd : detect_gift envTriv "🔥 limited 5%".toList
      = some { id := []
               detected_at := []
               is_limited := true
               is_sold_out := false
               urgency_score := 1
               price := none
               emoji := some "🔥".toList
               available_percent := some 5
               available := none
               total := none
               description := "🔥 limited 5%".toList } := by with_unfolding_all rfl
  have h2 := (C2_urgency_formula envTriv "🔥 limited 5%".toList _ hd).2
  exact ⟨hd, by simpa using h2⟩

/-! ## Claim C6 -/

/-- Availability fields produced by the fraction branch of
`_extract_availability` when the float computation stays in range. -/
theorem extract_availability_fraction {text : List Char} {A B : Nat} {v : Int}
    (hf : firstFraction text = some (A, B)) (hB : 0 < B)
    (hv : pyFloatPct ((B : Int) - (A : Int)) B = some v) :
    ∃ a, extract_availability text = .ok (some a)
    ∧ a.available = some ((B : Int) - (A : Int))
    ∧ a.total = some B
    ∧ a.available_percent = some v := by
  unfold extract_availability
  rcases hp : firstPercent text with _ | p <;>
    simp only [hp, hf, hB, if_true, hv] <;>
      exact ⟨_, rfl, rfl, rfl, rfl⟩

/-- When the float computation of the fraction branch leaves the double
range, the extraction raises (CPython's `OverflowError`). -/
theorem extract_availability_overflow {text : List Char} {A B : Nat}
    (hf : firstFraction text = some (A, B)) (hB : 0 < B)
    (hv : pyFloatPct ((B : Int) - (A : Int)) B = none) :
    extract_availability text = .error () := by
  unfold extract_availability
  rcases hp : firstPercent text with _ | p <;> simp [hp, hf, hB, hv]

/-- C6 (amended): when a detected text's first fraction match is `A/B` with
`B > 0`, the event carries `available = B - A`, `total = B`, and
`available_percent` equal to Python's `int((available / total) * 100)`:
the IEEE-754 double quotient, times 100, correctly rounded at each step and
then truncated toward zero (`pyFloatPct`) — which can differ by one both
from rounding to nearest and from exact truncation. -/
theorem C6_fraction_extraction (env : DetectEnv) (text : List Char) (g : GiftData)
    (A B : Nat) (h : detect_gift env text = some g)
    (hf : firstFraction text = some (A, B)) (hB : 0 < B) :
    g.available = some ((B : Int) - (A : Int))
    ∧ g.total = some B
    ∧ g.available_percent = pyFloatPct ((B : Int) - (A : Int)) B := by
  obtain ⟨avail, hava, hsold, hlim, hap, hav, htot, hurg⟩ := detect_gift_fields h
  rcases hpv : pyFloatPct ((B : Int) - (A : Int)) B with _ | v
  · rw [extract_availability_overflow hf hB hpv] at hava
    exact absurd hava (by simp)
  · obtain ⟨a, ha, e1, e2, e3⟩ := extract_availability_fraction hf hB hpv
    rw [hava] at ha
    have ha2 : avail = some a := Except.ok.inj ha
    subst ha2
    rw [hap, hav, htot]
    simp [e1, e2, e3]

set_option maxRecDepth 12000 in
/-- C6 counterexample: for `"🎁 1/3"` (fraction 1/3, so `available = 2` of
`total = 3`), the code stores `int((2/3)*100) = 66`, while the claimed
`round(available/total*100)` is 67.  (The float semantics also differ from
exact truncation: for `"🎁 71/100"` the exact ratio 29/100 gives 29, but
the code stores `int(28.999999999999996) = 28`.) -/
theorem C6_counterexample :
    (detect_gift envTriv "🎁 1/3".toList).map GiftData.available_percent = some (some 66)
    ∧ firstFraction "🎁 1/3".toList = some (1, 3)
    ∧ round ((((3 : ℚ) - 1) / 3) * 100) = 67
    ∧ (66 : Int) ≠ 67
    ∧ (detect_gift envTriv "🎁 71/100".toList).map GiftData.available_percent = some (some 28)
    ∧ Int.tdiv (((100 : Int) - 71) * 100) 100 = 29
    ∧ (28 : Int) ≠ 29 := by
  refine ⟨by with_unfolding_all rfl, by decide, ?_, by decide,
    by with_unfolding_all rfl, by decide, by decide⟩
  have e1 : (((3 : ℚ) - 1) / 3) * 100 = 200/3 := by norm_num
  rw [e1, round_eq]
  have e2 : (200 : ℚ)/3 + 1/2 = 403/6 := by norm_num
  rw [e2]
  exact Int.floor_eq_iff.mpr (by norm_num)

set_option maxRecDepth 12000 in
/-- C6 witness: the spec's own example `"120/1000"`. -/
theorem C6_witness :
    firstFraction "🎁 120/1000".toList = some (120, 1000)
    ∧ (detect_gift envTriv "🎁 120/1000".toList).map GiftData.available = some (some 880)
    ∧ (detect_gift envTriv "🎁 120/1000".toList).map GiftData.total = some (some 1000)
    ∧ (detect_gift envTriv "🎁 120/1000".toList).map GiftData.available_percent
        = some (some 88) := by
  have hd : detect_gift envTriv "🎁 120/1000".toList
      = some { id := []
               detected_at := []
               is_limited := false
               is_sold_out := false
               urgency_score := 3/10
               price := none
               emoji := some "🎁".toList
               available_percent := some 88
               available := some 880
               total := some 1000
               description := "🎁 120/1000".toList } := by with_unfolding_all rfl
  have h := C6_fraction_extraction envTriv "🎁 120/1000".toList _ 120 1000 hd
    (by decide) (by decide)
  refine ⟨by decide, ?_, ?_, ?_⟩ <;> rw [hd] <;> simp

/-! ## Claim C10 -/

/-- C10: a detected text whose lowering contains the substring `"0%"` (as any
percentage token such as `"10%"`, `"50%"`, `"100%"` produces) is flagged
`is_sold_out` by the keyword check and scored `urgency_score = 0`, even when
the extracted `available_percent` is nonzero. -/
theorem C10_zero_percent_substring (env : DetectEnv) (text : List Char) (g : GiftData)
    (p : Int) (h : detect_gift env text = some g)
    (h0 : containsSub ('0' :: '%' :: []) (lowerStr text) = true)
    (hap : g.available_percent = some p) (hp : p ≠ 0) :
    g.is_sold_out = true ∧ g.urgency_score = 0 := by
  obtain ⟨avail, hava, hsold, hlim, hap2, hav, htot, hurg⟩ := detect_gift_fields h
  have hk : is_sold_out (lowerStr text) = true := is_sold_out_of_contains _ h0
  have hs : g.is_sold_out = true := by rw [hsold, hk]; simp
  refine ⟨hs, ?_⟩
  rw [hurg, calculate_urgency_eq, hs]
  simp

set_option maxRecDepth 4000 in
/-- C10 witness: `"🎁 10%"` has `available_percent = 10` yet is sold-out with
urgency 0. -/
theorem C10_witness :
    containsSub ('0' :: '%' :: []) (lowerStr "🎁 10%".toList) = true
    ∧ (detect_gift envTriv "🎁 10%".toList).map GiftData.available_percent = some (some 10)
    ∧ (10 : Int) ≠ 0
    ∧ (detect_gift envTriv "🎁 10%".toList).map GiftData.is_sold_out = some true
    ∧ (detect_gift envTriv "🎁 10%".toList).map GiftData.urgency_score = some 0 := by
  have hd : detect_gift envTriv "🎁 10%".toList
      = some { id := []
               detected_at := []
               is_limited := false
               is_sold_out := true
               urgency_score := 0
               price := none
               emoji := some "🎁".toList
               available_percent := some 10
               available := none
               total := none
               description := "🎁 10%".toList } := by with_unfolding_all rfl
  have h := C10_zero_percent_substring envTriv "🎁 10%".toList _ 10 hd
    (by decide) rfl (by decide)
  refine ⟨by decide, ?_, by decide, ?_, ?_⟩ <;> rw [hd]
  · simp
  · simpa using h.1
  · simpa using h.2

/-! ## Claim C8 -/

/-- C8 counterexample: the same long-digit-run text detected under two
different clock values gives different results (the `detected_at` field
records the current time even when the identifier fallback is unused). -/
theorem C8_counterexample :
    (firstLongNumber "🎁 1234567890".toList).isSome = true
    ∧ detect_gift ⟨fun _ => [], [], 'a' :: []⟩ "🎁 1234567890".toList
        ≠ detect_gift ⟨fun _ => [], [], 'b' :: []⟩ "🎁 1234567890".toList := by
  constructor
  · decide
  · intro h
    have h2 := congrArg (fun o => (o.map GiftData.detected_at)) h
    simp only [detect_gift] at h2
    revert h2
    decide

/-- Model of `_calculate_urgency` only reads the three flag/percent fields. -/
theorem calculate_urgency_congr {a b : GiftData}
    (h1 : a.is_sold_out = b.is_sold_out) (h2 : a.is_limited = b.is_limited)
    (h3 : a.available_percent = b.available_percent) :
    calculate_urgency a = calculate_urgency b := by
  unfold calculate_urgency
  rw [h1, h2, h3]

/-- C8 (amended): on texts containing a 10–20 digit isolated run (so the
identifier fallback is unused), `detect_gift` is deterministic in everything
except `detected_at`: two invocations under any two clock values agree after
masking `detected_at`. -/
theorem C8_deterministic_except_time (hash : List Char → List Char)
    (st1 iso1 st2 iso2 text : List Char)
    (h : (firstLongNumber text).isSome = true) :
    (detect_gift ⟨hash, st1, iso1⟩ text).map eraseTime
      = (detect_gift ⟨hash, st2, iso2⟩ text).map eraseTime := by
  rcases hl : firstLongNumber text with _ | n
  · rw [hl] at h; simp at h
  · by_cases he : text.isEmpty = true
    · simp [detect_gift, he]
    · by_cases hk : (gift_keywords.any fun k => containsSub k (lowerStr text)) = true
      · rcases hava : extract_availability text with e | avail
        · simp [detect_gift, he, hk, hava]
        · simp only [detect_gift, he, hk, hava, not_true, if_false, if_neg,
            Option.map_some]
          simp [eraseTime, generate_gift_id, hl]
          exact calculate_urgency_congr rfl rfl rfl
      · simp [detect_gift, he, hk]

/-- C8 witness for the amended statement at a concrete input. -/
theorem C8_witness :
    (firstLongNumber "🎁 1234567890".toList).isSome = true
    ∧ (detect_gift ⟨fun _ => [], [], 'a' :: []⟩ "🎁 1234567890".toList).map eraseTime
        = (detect_gift ⟨fun _ => [], [], 'b' :: []⟩ "🎁 1234567890".toList).map eraseTime :=
  ⟨by decide,
   C8_deterministic_except_time (fun _ => []) [] ('a' :: []) [] ('b' :: [])
     "🎁 1234567890".toList (by decide)⟩

/-! ## Pipeline lemmas -/

theorem sendLoop_cons (env : PipelineEnv) (u : UserRec) (us : List UserRec) (s : Effects) :
    sendLoop env (u :: us) s = sendLoop env us (applyDelta s (userDelta env u)) := rfl

/-- The recipient loop never touches the upstream pipeline fields. -/
theorem sendLoop_frame (env : PipelineEnv) (users : List UserRec) (s : Effects) :
    (sendLoop env users s).suppressed = s.suppressed
    ∧ (sendLoop env users s).detected = s.detected
    ∧ (sendLoop env users s).saveCalled = s.saveCalled
    ∧ (sendLoop env users s).saveResult = s.saveResult
    ∧ (sendLoop env users s).dbErrorLogged = s.dbErrorLogged
    ∧ (sendLoop env users s).dispatchCalled = s.dispatchCalled
    ∧ (sendLoop env users s).dispatchedWith = s.dispatchedWith := by
  induction users generalizing s with
  | nil => exact ⟨rfl, rfl, rfl, rfl, rfl, rfl, rfl⟩
  | cons u us ih => exact ih (applyDelta s (userDelta env u))

/-- Model of `_send_notifications` records the dispatch (with the id it was given) and
leaves the upstream fields alone. -/
theorem send_notifications_spec (env : PipelineEnv) (nid : Option Nat) (s : Effects) :
    (send_notifications env nid s).suppressed = s.suppressed
    ∧ (send_notifications env nid s).detected = s.detected
    ∧ (send_notifications env nid s).saveCalled = s.saveCalled
    ∧ (send_notifications env nid s).saveResult = s.saveResult
    ∧ (send_notifications env nid s).dbErrorLogged = s.dbErrorLogged
    ∧ (send_notifications env nid s).dispatchCalled = true
    ∧ (send_notifications env nid s).dispatchedWith = some nid := by
  unfold send_notifications
  rcases hga : env.getActiveUsers with e | users
  · exact ⟨rfl, rfl, rfl, rfl, rfl, rfl, rfl⟩
  · by_cases hu : users.isEmpty = true
    · simp [hu]
    · simp only [hu, Bool.false_eq_true, if_false]
      exact sendLoop_frame env users _

/-- Model of `_update_statistics` only touches the stats fields. -/
theorem update_statistics_frame (env : PipelineEnv) (g : GiftData) (s : Effects) :
    (update_statistics env g s).suppressed = s.suppressed
    ∧ (update_statistics env g s).detected = s.detected
    ∧ (update_statistics env g s).saveCalled = s.saveCalled
    ∧ (update_statistics env g s).saveResult = s.saveResult
    ∧ (update_statistics env g s).dbErrorLogged = s.dbErrorLogged
    ∧ (update_statistics env g s).dispatchCalled = s.dispatchCalled
    ∧ (update_statistics env g s).dispatchedWith = s.dispatchedWith := by
  unfold update_statistics
  rcases env.incrementStats with e | u
  · exact ⟨rfl, rfl, rfl, rfl, rfl, rfl, rfl⟩
  · rcases g.price with _ | p
    · exact ⟨rfl, rfl, rfl, rfl, rfl, rfl, rfl⟩
    · rcases env.priceHistory with e | u
      · exact ⟨rfl, rfl, rfl, rfl, rfl, rfl, rfl⟩
      · exact ⟨rfl, rfl, rfl, rfl, rfl, rfl, rfl⟩

/-- The database block when the save raises: the inner handler logs the
error; nothing is dispatched. -/
theorem runDbSection_save_error (env : PipelineEnv) (g : GiftData) (s : Effects)
    (h : env.saveNotification = .error ()) :
    runDbSection env g s
      = (if env.dbPool then { s with saveCalled := true, dbErrorLogged := true } else s) := by
  unfold runDbSection
  by_cases hp : env.dbPool = true <;> simp [hp, h]

/-- The database block when the save returns (any id, `None` included):
the fanout is invoked with exactly that id. -/
theorem runDbSection_save_ok (env : PipelineEnv) (g : GiftData) (s : Effects)
    (nid : Option Nat) (h : env.saveNotification = .ok nid) (hp : env.dbPool = true) :
    (runDbSection env g s).dispatchCalled = true
    ∧ (runDbSection env g s).dispatchedWith = some nid
    ∧ (runDbSection env g s).saveCalled = true
    ∧ (runDbSection env g s).saveResult = some nid
    ∧ (runDbSection env g s).detected = s.detected
    ∧ (runDbSection env g s).suppressed = s.suppressed := by
  unfold runDbSection
  simp only [hp, if_true, h]
  obtain ⟨u1, u2, u3, u4, u5, u6, u7⟩ := update_statistics_frame env g
    (send_notifications env nid { s with saveCalled := true, saveResult := some nid })
  obtain ⟨n1, n2, n3, n4, n5, n6, n7⟩ := send_notifications_spec env nid
    { s with saveCalled := true, saveResult := some nid }
  exact ⟨u6.trans n6, u7.trans n7, u3.trans n3, u4.trans n4, u2.trans n2, u1.trans n1⟩

theorem runDbSection_detected (env : PipelineEnv) (g : GiftData) (s : Effects) :
    (runDbSection env g s).detected = s.detected := by
  by_cases hp : env.dbPool = true
  · rcases hs : env.saveNotification with e | nid
    · cases e
      rw [runDbSection_save_error env g s hs, if_pos hp]
    · exact (runDbSection_save_ok env g s nid hs hp).2.2.2.2.1
  · unfold runDbSection
    simp [hp]

theorem runDbSection_suppressed (env : PipelineEnv) (g : GiftData) (s : Effects) :
    (runDbSection env g s).suppressed = s.suppressed := by
  by_cases hp : env.dbPool = true
  · rcases hs : env.saveNotification with e | nid
    · cases e
      rw [runDbSection_save_error env g s hs, if_pos hp]
    · exact (runDbSection_save_ok env g s nid hs hp).2.2.2.2.2
  · unfold runDbSection
    simp [hp]

theorem runDbSection_saveCalled (env : PipelineEnv) (g : GiftData) (s : Effects) :
    (runDbSection env g s).saveCalled = (env.dbPool || s.saveCalled) := by
  by_cases hp : env.dbPool = true
  · rcases hs : env.saveNotification with e | nid
    · cases e
      rw [runDbSection_save_error env g s hs, if_pos hp, hp]
      rfl
    · rw [(runDbSection_save_ok env g s nid hs hp).2.2.1, hp]
      rfl
  · unfold runDbSection
    simp only [Bool.not_eq_true] at hp
    simp [hp]

/-- The dedup block never touches the downstream fields. -/
theorem dedupStep_frame (env : PipelineEnv) (msg : MsgIn) (s : Effects) :
    (dedupStep env msg s).2.suppressed = s.suppressed
    ∧ (dedupStep env msg s).2.detected = s.detected
    ∧ (dedupStep env msg s).2.saveCalled = s.saveCalled
    ∧ (dedupStep env msg s).2.saveResult = s.saveResult
    ∧ (dedupStep env msg s).2.dispatchCalled = s.dispatchCalled
    ∧ (dedupStep env msg s).2.dispatchedWith = s.dispatchedWith := by
  unfold dedupStep
  by_cases hc : env.redisConn = true
  · simp only [hc, if_true]
    rcases env.redisExists msg.chat_id msg.msg_id with e | b
    · exact ⟨rfl, rfl, rfl, rfl, rfl, rfl⟩
    · cases b
      · rcases env.redisSetex msg.chat_id msg.msg_id 3600 with e | u
        · exact ⟨rfl, rfl, rfl, rfl, rfl, rfl⟩
        · exact ⟨rfl, rfl, rfl, rfl, rfl, rfl⟩
      · exact ⟨rfl, rfl, rfl, rfl, rfl, rfl⟩
  · simp [hc]

/-! ## Claim C3 -/

/-- C3: re-delivering a message whose `(source_chat_id, message_id)` key is
already marked in the connected dedup cache is suppressed before detection:
nothing is detected, persisted, or dispatched for it. -/
theorem C3_duplicate_suppressed (env : PipelineEnv) (msg : MsgIn)
    (hmon : is_monitored_channel env.monitored (channelUserOf msg) = true)
    (hconn : env.redisConn = true)
    (hdup : env.redisExists msg.chat_id msg.msg_id = .ok true) :
    (process_message env msg).suppressed = true
    ∧ (process_message env msg).detected = none
    ∧ (process_message env msg).saveCalled = false
    ∧ (process_message env msg).dispatchCalled = false := by
  have hd : dedupStep env msg Effects.init = (true, Effects.init) := by
    simp [dedupStep, hconn, hdup]
  have hp : process_message env msg = { Effects.init with suppressed := true } := by
    simp [process_message, hmon, hd]
  rw [hp]
  exact ⟨rfl, rfl, rfl, rfl⟩

/-- C3 witness: a concrete already-marked message. -/
theorem C3_witness :
    is_monitored_channel envC3.monitored (channelUserOf msgGift) = true
    ∧ envC3.redisConn = true
    ∧ envC3.redisExists msgGift.chat_id msgGift.msg_id = .ok true
    ∧ (process_message envC3 msgGift).suppressed = true
    ∧ (process_message envC3 msgGift).detected = none
    ∧ (process_message envC3 msgGift).saveCalled = false
    ∧ (process_message envC3 msgGift).dispatchCalled = false := by
  obtain ⟨a, b, c, d⟩ := C3_duplicate_suppressed envC3 msgGift (by decide) rfl rfl
  exact ⟨by decide, rfl, rfl, a, b, c, d⟩

/-! ## Claim C7 -/

/-- C7: with the cache layer unavailable — no connection, or the check-call
raising — a monitored message is treated as new: never suppressed, detection
runs, persistence is attempted exactly when a gift was detected and the pool
is up, and (when the save returns) the dispatch happens as in the cache-less
run.  The failure is absorbed (the handler logs a warning), not propagated:
`process_message` still returns normally, as its total type shows. -/
theorem C7_cache_degraded (env : PipelineEnv) (msg : MsgIn)
    (hmon : is_monitored_channel env.monitored (channelUserOf msg) = true)
    (hfail : env.redisConn = false ∨ env.redisExists msg.chat_id msg.msg_id = .error ()
      ∨ (env.redisExists msg.chat_id msg.msg_id = .ok false
          ∧ env.redisSetex msg.chat_id msg.msg_id 3600 = .error ())) :
    (process_message env msg).suppressed = false
    ∧ (process_message env msg).detected = detect_gift env.detectEnv (textOf msg)
    ∧ (process_message env msg).saveCalled
        = (env.dbPool && (detect_gift env.detectEnv (textOf msg)).isSome)
    ∧ (∀ r, env.saveNotification = .ok r →
        (process_message env msg).dispatchCalled
          = (env.dbPool && (detect_gift env.detectEnv (textOf msg)).isSome)) := by
  have hd : ∃ s1, dedupStep env msg Effects.init = (false, s1)
      ∧ s1.suppressed = false ∧ s1.detected = none ∧ s1.saveCalled = false
      ∧ s1.dispatchCalled = false := by
    rcases hfail with hc | he | ⟨hn, hse⟩
    · exact ⟨Effects.init, by simp [dedupStep, hc], rfl, rfl, rfl, rfl⟩
    · by_cases hc2 : env.redisConn = true
      · exact ⟨{ Effects.init with redisWarned := true }, by simp [dedupStep, hc2, he],
          rfl, rfl, rfl, rfl⟩
      · simp only [Bool.not_eq_true] at hc2
        exact ⟨Effects.init, by simp [dedupStep, hc2], rfl, rfl, rfl, rfl⟩
    · by_cases hc2 : env.redisConn = true
      · exact ⟨{ Effects.init with redisWarned := true }, by simp [dedupStep, hc2, hn, hse],
          rfl, rfl, rfl, rfl⟩
      · simp only [Bool.not_eq_true] at hc2
        exact ⟨Effects.init, by simp [dedupStep, hc2], rfl, rfl, rfl, rfl⟩
  obtain ⟨s1, hd, hs1, hdet1, hsc1, hdc1⟩ := hd
  rcases hdet : detect_gift env.detectEnv (textOf msg) with _ | g
  · have hp : process_message env msg = s1 := by
      simp [process_message, hmon, hd, hdet]
    rw [hp]
    refine ⟨hs1, ?_, ?_, fun r hr => ?_⟩
    · first
        | exact hdet1
        | exact hdet1.trans hdet.symm
    · simp [hdet, hsc1]
    · simp [hdet, hdc1]
  · have hp : process_message env msg = runDbSection env g { s1 with detected := some g } := by
      simp [process_message, hmon, hd, hdet]
    rw [hp]
    refine ⟨?_, ?_, ?_, fun r hr => ?_⟩
    · rw [runDbSection_suppressed]
      exact hs1
    · rw [runDbSection_detected]
    · rw [runDbSection_saveCalled]
      simp [hsc1, hdet]
    · by_cases hpool : env.dbPool = true
      · rw [(runDbSection_save_ok env g _ r hr hpool).1]
        simp [hpool, hdet]
      · simp only [Bool.not_eq_true] at hpool
        have : runDbSection env g { s1 with detected := some g }
            = { s1 with detected := some g } := by
          unfold runDbSection
          simp [hpool]
        rw [this]
        simp [hpool, hdc1]

/-- C7 witness: a concrete environment whose cache calls raise. -/
theorem C7_witness :
    is_monitored_channel envC7.monitored (channelUserOf msgGift) = true
    ∧ (envC7.redisConn = false ∨ envC7.redisExists msgGift.chat_id msgGift.msg_id = .error ())
    ∧ (process_message envC7 msgGift).suppressed = false
    ∧ (process_message envC7 msgGift).detected = detect_gift envC7.detectEnv (textOf msgGift)
    ∧ (process_message envC7 msgGift).saveCalled = true
    ∧ (process_message envC7 msgGift).dispatchCalled = true := by
  obtain ⟨a, b, c, d⟩ := C7_cache_degraded envC7 msgGift (by decide) (Or.inr (Or.inl rfl))
  refine ⟨by decide, Or.inr rfl, a, b, ?_, ?_⟩
  · rw [c]
    decide
  · rw [d (some 9) rfl]
    decide

/-! ## Claim C4 -/

/-- C4 counterexample: a persistence failure reported as a `None` identifier
(the adapter's failure mode: `save_notification` catches its own errors and
returns `None`) is followed by dispatch — `_send_notifications` is invoked
with `notification_id = None` — contradicting the claimed `NOTIFY_SKIPPED`. -/
theorem C4_counterexample :
    envC4n.saveNotification = .ok none
    ∧ (process_message envC4n msgGift).saveResult = some none
    ∧ (process_message envC4n msgGift).dispatchCalled = true := by
  exact ⟨rfl, by with_unfolding_all rfl, by with_unfolding_all rfl⟩

/-- C4 (amended): a persistence failure that raises is contained by the
handler at the database block — it does not escape the per-message boundary
(`process_message` returns normally) and no dispatch happens — and each
message of a stream is processed independently of the others.  (A failure
returned as a `None` identifier, by contrast, is followed by dispatch; see
the C1 result.) -/
theorem C4_persistence_exception_contained (env : PipelineEnv) (msg : MsgIn)
    (rest : List MsgIn) (h : env.saveNotification = .error ()) :
    (process_message env msg).dispatchCalled = false
    ∧ (process_message env msg).dispatchedWith = none
    ∧ process_stream env (msg :: rest) = process_message env msg :: process_stream env rest := by
  refine ⟨?_, ?_, rfl⟩ <;>
  · by_cases hmon : is_monitored_channel env.monitored (channelUserOf msg) = true
    · obtain ⟨f1, f2, f3, f4, f5, f6⟩ := dedupStep_frame env msg Effects.init
      by_cases hp1 : (dedupStep env msg Effects.init).1 = true
      · have hp : process_message env msg
            = { (dedupStep env msg Effects.init).2 with suppressed := true } := by
          simp [process_message, hmon, hp1]
        rw [hp]
        first
          | exact f5
          | exact f6
      · simp only [Bool.not_eq_true] at hp1
        rcases hdet : detect_gift env.detectEnv (textOf msg) with _ | g
        · have hp : process_message env msg = (dedupStep env msg Effects.init).2 := by
            simp [process_message, hmon, hp1, hdet]
          rw [hp]
          first
            | exact f5
            | exact f6
        · have hp : process_message env msg
              = runDbSection env g
                  { (dedupStep env msg Effects.init).2 with detected := some g } := by
            simp [process_message, hmon, hp1, hdet]
          rw [hp, runDbSection_save_error env g _ h]
          by_cases hpool : env.dbPool = true
          · simp only [hpool, if_true]
            first
              | exact f5
              | exact f6
          · simp only [hpool, Bool.false_eq_true, if_false]
            first
              | exact f5
              | exact f6
    · have hp : process_message env msg = Effects.init := by
        simp [process_message, hmon]
      rw [hp]
      rfl

/-- C4 witness: a concrete environment whose save raises. -/
theorem C4_witness :
    envC4e.saveNotification = .error ()
    ∧ (process_message envC4e msgGift).dispatchCalled = false
    ∧ (process_message envC4e msgGift).dispatchedWith = none
    ∧ process_stream envC4e (msgGift :: [])
        = process_message envC4e msgGift :: process_stream envC4e [] := by
  obtain ⟨a, b, c⟩ := C4_persistence_exception_contained envC4e msgGift [] rfl
  exact ⟨rfl, a, b, c⟩

/-! ## Claim C1 -/

/-- C1 (the code violates the invariant): when `save_notification` returns no
durable identifier, `process_message` still invokes `_send_notifications`,
passing `notification_id = None`, and a push is delivered to the recipient —
the unpersisted event triggers dispatch. -/
theorem C1_null_id_still_dispatches :
    envC1.saveNotification = .ok none
    ∧ (process_message envC1 msgGift).saveResult = some none
    ∧ (process_message envC1 msgGift).dispatchCalled = true
    ∧ (process_message envC1 msgGift).dispatchedWith = some none
    ∧ (process_message envC1 msgGift).deliveries = (3, true) :: [] := by
  refine ⟨rfl, ?_, ?_, ?_, ?_⟩ <;> with_unfolding_all rfl

/-! ## Claim C5 -/

/-- One loop iteration of `_send_notifications`, characterized: the delivery
records and push attempts it appends are the per-recipient outcomes. -/
theorem userDelta_chars (env : PipelineEnv) (u : UserRec) :
    (userDelta env u).dels = (deliveryOutcome env u).toList
    ∧ (userDelta env u).pushed = (pushAttempt env u).toList := by
  unfold userDelta deliveryOutcome pushAttempt
  by_cases hm : u.is_muted = true
  · simp [hm]
  · simp only [hm, Bool.false_eq_true, if_false]
    rcases env.getUserTokens u.uid with e | tks
    · simp
    · by_cases ht : tks.isEmpty = true
      · simp [ht]
      · simp only [ht, Bool.false_eq_true, if_false]
        rcases env.pushSend u.uid with e | r
        · simp
        · by_cases hs : r.success > 0
          · simp only [hs, if_true]
            rcases env.logDelivery u.uid with e | v <;> simp
          · simp [hs]

/-- A delivery record produced by the loop is always `delivered = true`. -/
theorem deliveryOutcome_delivered (env : PipelineEnv) (u : UserRec)
    (e : Nat × Bool) (h : deliveryOutcome env u = some e) : e.2 = true := by
  unfold deliveryOutcome at h
  by_cases hm : u.is_muted = true
  · simp [hm] at h
  · simp only [hm, Bool.false_eq_true, if_false] at h
    rcases htk : env.getUserTokens u.uid with tk | tks <;> rw [htk] at h
    · simp at h
    · by_cases ht : tks.isEmpty = true
      · simp [ht] at h
      · simp only [ht, Bool.false_eq_true, if_false] at h
        rcases hps : env.pushSend u.uid with tk | r <;> rw [hps] at h
        · simp at h
        · by_cases hs : r.success > 0
          · simp only [hs, if_true] at h
            rcases hld : env.logDelivery u.uid with tk | v <;> rw [hld] at h
            · simp at h
            · simp only [Option.some.injEq] at h
              rw [← h]
          · simp [hs] at h

/-- C5 (amended): the recipient loop processes every recipient — a prefix's
failures never change how the remaining recipients are handled — appends one
push attempt per unmuted recipient with tokens, and appends a delivery
record, always with `delivered = true`, exactly for the recipients whose
gateway batch reported `success_count > 0` (and whose log call returned);
recipients with zero successes, no tokens, or muted get no record at all. -/
theorem C5_recipient_loop (env : PipelineEnv) (users more : List UserRec) (s : Effects) :
    (sendLoop env users s).deliveries = s.deliveries ++ users.filterMap (deliveryOutcome env)
    ∧ (sendLoop env users s).pushedUsers = s.pushedUsers ++ users.filterMap (pushAttempt env)
    ∧ (∀ e ∈ users.filterMap (deliveryOutcome env), e.2 = true)
    ∧ sendLoop env (users ++ more) s = sendLoop env more (sendLoop env users s) := by
  refine ⟨?_, ?_, ?_, by simp [sendLoop, List.foldl_append]⟩
  · induction users generalizing s with
    | nil => simp [sendLoop]
    | cons u us ih =>
      rw [sendLoop_cons, ih, List.filterMap_cons]
      rcases hdo : deliveryOutcome env u with _ | d <;>
        simp [applyDelta, (userDelta_chars env u).1, hdo]
  · induction users generalizing s with
    | nil => simp [sendLoop]
    | cons u us ih =>
      rw [sendLoop_cons, ih, List.filterMap_cons]
      rcases hpa : pushAttempt env u with _ | d <;>
        simp [applyDelta, (userDelta_chars env u).2, hpa]
  · intro e he
    obtain ⟨u, hu, hed⟩ := List.mem_filterMap.mp he
    exact deliveryOutcome_delivered env u e hed

/-- C5 counterexample: two recipients, both pushed; the gateway reports zero
successes for recipient 7 and two successes for recipient 8.  Recipient 8 is
recorded `delivered = true`, but no record at all is written for recipient 7
— not the claimed per-recipient record with `delivered = false`. -/
theorem C5_counterexample :
    (send_notifications envC5 (some 1) Effects.init).pushedUsers = 7 :: 8 :: []
    ∧ (send_notifications envC5 (some 1) Effects.init).deliveries = (8, true) :: []
    ∧ ((8, true) :: [] : List (Nat × Bool)) ≠ (7, false) :: (8, true) :: [] := by
  exact ⟨by with_unfolding_all rfl, by with_unfolding_all rfl, by decide⟩

end TGM
